import Mathlib

/-!
Shallow embedding of the Crea8ive Face Analyzer front-end.

Sources embedded here:
- `src/types.ts` — the domain data model (ImageFile, FeatureScore,
  DetailedScore, OverlayLine, AnalysisResult, AppState).
- `src/App.tsx` — the Application Controller: `handleImageUpload`,
  `handleAnalyze`, `handleReset` acting on the React state quadruple
  (image, analysisResult, appState, error).
- `src/services/geminiService.ts` — `analyzeFace`, with the host
  `JSON.parse` abstracted as an oracle (`Option Json`), and the declared
  response schema (`analysisSchema`) embedded as a shape check on `Json`.
- `src/components/AnalysisReport.tsx` — deviation color banding and the
  overlay-line normalized-to-pixel transform of `AnnotatedImage`.
- `src/utils/pdfGenerator.ts` — `generatePdf` over an explicit browser
  environment (library availability, rasterization outcome), recording
  the observable effects (return value, alerts, saved document, final
  element style).

JavaScript numbers are modelled as `ℚ`; integer-valued fields as `Int`.
Optional fields are `Option`; JS truthiness of optional strings (where
the code branches on it) is modelled explicitly by `strTruthy`.
-/

namespace FaceAnalyzer

/-- A browser `File`: only the fields the embedded code reads (its MIME
`type`; `name` kept to distinguish files). -/
structure File where
  name : String
  type : String
deriving DecidableEq, Repr

/-- `src/types.ts` — `ImageFile` wraps a `File`. -/
structure ImageFile where
  file : File
deriving DecidableEq, Repr

/-- The three service-reported error codes of `AnalysisResult.error`
(`src/types.ts`). -/
inductive ErrorKind
  | MULTIPLE_FACES
  | LOW_QUALITY
  | NO_FACE
deriving DecidableEq, Repr

/-- `src/types.ts` — `FeatureScore`. -/
structure FeatureScore where
  feature : String
  score : Int
deriving DecidableEq, Repr

/-- `src/types.ts` — `DetailedScore`. -/
structure DetailedScore where
  ratioName : String
  value : String
  deviation : Int
deriving DecidableEq, Repr

/-- `src/types.ts` — `OverlayLine`, normalized coordinates. -/
structure OverlayLine where
  x1 : ℚ
  y1 : ℚ
  x2 : ℚ
  y2 : ℚ
  label : Option String
deriving DecidableEq, Repr

/-- `src/types.ts` — `AnalysisResult`. -/
structure AnalysisResult where
  overallScore : Int
  feedback : String
  featureScores : List FeatureScore
  detailedScores : List DetailedScore
  overlayLines : List OverlayLine
  error : Option ErrorKind
  errorMessage : Option String
deriving DecidableEq, Repr

/-- `src/types.ts` — `AppState` enum. -/
inductive AppState
  | Idle
  | Loading
  | Result
  | Error
deriving DecidableEq, Repr

/-- The React state of `App` (`src/App.tsx`): the four `useState` cells. -/
structure ControllerState where
  image : Option ImageFile
  analysisResult : Option AnalysisResult
  appState : AppState
  error : Option String
deriving DecidableEq, Repr

/-- JS truthiness of an optional string: `undefined` and the empty string
are falsy, every other string is truthy. -/
def strTruthy : Option String → Bool
  | none => false
  | some s => s ≠ ""

/-- `src/App.tsx` `handleImageUpload` — the accepted MIME types. -/
def acceptedTypes : List String := ["image/jpeg", "image/png", "image/jpg"]

/-- The fixed unsupported-type message of `handleImageUpload`. -/
def unsupportedTypeMessage : String :=
  "Unsupported file type. Please upload a photo in JPG or PNG format."

/-- `src/App.tsx` `handleImageUpload`: reject files whose MIME type is
not accepted (set error + Error state, leaving `image` untouched);
otherwise clear the error, return to Idle and attach the file. -/
def handleImageUpload (s : ControllerState) (file : File) : ControllerState :=
  if file.type ∉ acceptedTypes then
    { s with error := some unsupportedTypeMessage, appState := AppState.Error }
  else
    { s with error := none, appState := AppState.Idle, image := some ⟨file⟩ }

/-- The message set by `handleAnalyze` when no image is attached. -/
def noImageMessage : String := "Please upload an image to analyze."

/-- The message synthesized by `handleAnalyze` when `analyzeFace` throws
an `Error` carrying `msg`. -/
def analysisFailureMessage (msg : String) : String :=
  "Unable to analyze. Please re-upload a clear image. Details: " ++ msg

/-- `src/App.tsx` `handleAnalyze`, with the awaited `analyzeFace` call
abstracted as its outcome (`Except.ok result` when the promise resolves,
`Except.error msg` when it rejects with an `Error` carrying `msg`).
With no image: set the inline error only and return (state unchanged).
Otherwise: enter Loading with the error cleared, then dispatch on the
outcome exactly as the `try`/`catch` does — note the success branch
requires BOTH `result.error` and `result.errorMessage` to be truthy to
reach the Error state. -/
def handleAnalyze (s : ControllerState) (outcome : Except String AnalysisResult) :
    ControllerState :=
  match s.image with
  | none => { s with error := some noImageMessage }
  | some _ =>
    let s1 : ControllerState := { s with appState := AppState.Loading, error := none }
    match outcome with
    | Except.ok result =>
      if result.error.isSome && strTruthy result.errorMessage then
        { s1 with error := result.errorMessage, appState := AppState.Error }
      else
        { s1 with analysisResult := some result, appState := AppState.Result }
    | Except.error msg =>
      { s1 with error := some (analysisFailureMessage msg), appState := AppState.Error }

/-- `src/App.tsx` `handleReset`: clear image, result and error, back to
Idle. -/
def handleReset (_s : ControllerState) : ControllerState :=
  { image := none, analysisResult := none, appState := AppState.Idle, error := none }

/-! ## Analysis Client — `src/services/geminiService.ts` -/

/-- A JSON value, the result of the host `JSON.parse` on the service
response text. Numbers are `ℚ`. -/
inductive Json where
  | null : Json
  | bool : Bool → Json
  | num : ℚ → Json
  | str : String → Json
  | arr : List Json → Json
  | obj : List (String × Json) → Json

/-- Field lookup in a JSON object (first match). -/
def Json.lookup (key : String) : List (String × Json) → Option Json
  | [] => none
  | (k, v) :: rest => if k = key then some v else Json.lookup key rest

/-- The key is present and its value passes the check. -/
def Json.reqField (fields : List (String × Json)) (key : String)
    (check : Json → Bool) : Bool :=
  match Json.lookup key fields with
  | some v => check v
  | none => false

/-- The key is absent, or present with a value passing the check. -/
def Json.optField (fields : List (String × Json)) (key : String)
    (check : Json → Bool) : Bool :=
  match Json.lookup key fields with
  | some v => check v
  | none => true

/-- Schema type `Type.INTEGER`: a JSON number with no fractional part. -/
def Json.isInt : Json → Bool
  | Json.num q => q.den = 1
  | _ => false

/-- Schema type `Type.STRING`. -/
def Json.isStr : Json → Bool
  | Json.str _ => true
  | _ => false

/-- Schema type `Type.NUMBER`. -/
def Json.isNum : Json → Bool
  | Json.num _ => true
  | _ => false

/-- Schema type `Type.ARRAY` with the given item check. -/
def Json.isArrOf (check : Json → Bool) : Json → Bool
  | Json.arr xs => xs.all check
  | _ => false

/-- The `featureScores` item schema of `analysisSchema`: an object with
required string `feature` and integer `score`. -/
def featureScoreShape : Json → Bool
  | Json.obj fs =>
      Json.reqField fs "feature" Json.isStr && Json.reqField fs "score" Json.isInt
  | _ => false

/-- The `detailedScores` item schema of `analysisSchema`: required string
`ratioName`, string `value`, integer `deviation`. -/
def detailedScoreShape : Json → Bool
  | Json.obj fs =>
      Json.reqField fs "ratioName" Json.isStr && Json.reqField fs "value" Json.isStr
        && Json.reqField fs "deviation" Json.isInt
  | _ => false

/-- The `overlayLines` item schema of `analysisSchema`: required numbers
`x1`,`y1`,`x2`,`y2`, optional string `label`. -/
def overlayLineShape : Json → Bool
  | Json.obj fs =>
      Json.reqField fs "x1" Json.isNum && Json.reqField fs "y1" Json.isNum
        && Json.reqField fs "x2" Json.isNum && Json.reqField fs "y2" Json.isNum
        && Json.optField fs "label" Json.isStr
  | _ => false

/-- `analysisSchema` of `src/services/geminiService.ts` as a shape check:
an object with required `overallScore` (integer), `feedback` (string),
`featureScores`, `detailedScores`, `overlayLines` (arrays of the item
shapes above) and optional strings `error` and `errorMessage`. -/
def analysisResultShape : Json → Bool
  | Json.obj fs =>
      Json.reqField fs "overallScore" Json.isInt
        && Json.reqField fs "feedback" Json.isStr
        && Json.reqField fs "featureScores" (Json.isArrOf featureScoreShape)
        && Json.reqField fs "detailedScores" (Json.isArrOf detailedScoreShape)
        && Json.reqField fs "overlayLines" (Json.isArrOf overlayLineShape)
        && Json.optField fs "error" Json.isStr
        && Json.optField fs "errorMessage" Json.isStr
  | _ => false

/-- Message of the `Error` thrown when `process.env.API_KEY` is unset. -/
def apiKeyMissingMessage : String := "API_KEY environment variable not set"

/-- Message of the `Error` thrown when the `image` argument is absent. -/
def imageRequiredMessage : String := "An image is required for analysis."

/-- Message of the `Error` thrown when `JSON.parse` rejects the response
text. -/
def parseFailureMessage : String :=
  "Could not parse the analysis result from the AI. The response was not valid JSON."

/-- `src/services/geminiService.ts` `analyzeFace`. `apiKey` models
`process.env.API_KEY` (truthiness-checked, so an empty string also
fails); `parsedResponse` abstracts the host `JSON.parse` applied to the
trimmed response text (`none` when the text is not valid JSON). On a
successful parse the value is returned as-is — the `as AnalysisResult`
cast performs no shape validation. -/
def analyzeFace (apiKey : Option String) (image : Option ImageFile)
    (parsedResponse : Option Json) : Except String Json :=
  if !strTruthy apiKey then
    Except.error apiKeyMissingMessage
  else
    match image with
    | none => Except.error imageRequiredMessage
    | some _ =>
      match parsedResponse with
      | some j => Except.ok j
      | none => Except.error parseFailureMessage

/-! ## Result Renderer — `src/components/AnalysisReport.tsx` -/

/-- The ternary chain coloring a detail row by its deviation:
`deviation <= 5 ? text-green-400 : deviation <= 15 ? text-yellow-400 :
text-red-400`. -/
def deviationBandClass (d : Int) : String :=
  if d ≤ 5 then "text-green-400"
  else if d ≤ 15 then "text-yellow-400"
  else "text-red-400"

/-- A rendered overlay line in pixel coordinates. -/
structure PixelLine where
  x1 : ℚ
  y1 : ℚ
  x2 : ℚ
  y2 : ℚ
deriving DecidableEq, Repr

/-- `AnnotatedImage` line rendering: each normalized coordinate is scaled
by the displayed dimensions (`line.x1 * dimensions.width`, etc.). -/
def renderLine (line : OverlayLine) (width height : ℚ) : PixelLine :=
  { x1 := line.x1 * width
    y1 := line.y1 * height
    x2 := line.x2 * width
    y2 := line.y2 * height }

/-! ## Report Exporter — `src/utils/pdfGenerator.ts` -/

deriving instance DecidableEq for Except

/-- The inline style of the target element: its background color, and a
placeholder for every other style declaration (the code touches only
`style.backgroundColor`). -/
structure ElementStyle where
  backgroundColor : String
  otherDecls : String
deriving DecidableEq, Repr

/-- The bitmap produced by `html2canvas`. -/
structure Canvas where
  width : ℚ
  height : ℚ
deriving DecidableEq, Repr

/-- The browser environment `generatePdf` runs in: which globals are
defined on `window`, and how the `html2canvas` call resolves. -/
structure PdfEnv where
  html2canvasLoaded : Bool
  jspdfLoaded : Bool
  jsPDFLoaded : Bool
  renderResult : Except String Canvas
deriving DecidableEq, Repr

/-- `jsPDF` page orientation. -/
inductive PdfOrientation
  | portrait
  | landscape
deriving DecidableEq, Repr

/-- The document built by `generatePdf`: orientation and `[width, height]`
format in mm. -/
structure PdfDoc where
  orient : PdfOrientation
  formatW : ℚ
  formatH : ℚ
deriving DecidableEq, Repr

/-- Everything observable about one `generatePdf` call: what the caller
sees (`returned` — the promise settles with `Except.error` only if an
exception escapes), the alerts shown, the saved document with its file
name (if any), and the element style after the call. -/
structure PdfRun where
  returned : Except String Unit
  alerts : List String
  saved : Option (PdfDoc × String)
  finalStyle : ElementStyle
deriving DecidableEq, Repr

/-- Alert text when `html2canvas`/`jspdf` are not loaded. -/
def libMissingAlert : String :=
  "Sorry, there was a problem loading the PDF generation library. Please try refreshing the page."

/-- Alert text of the `catch` block on a rasterization error. -/
def pdfErrorAlert : String :=
  "An error occurred while generating the PDF report. Please try again."

/-- The fixed background color forced during capture. -/
def captureBackground : String := "#262626"

/-- The fixed file name passed to `pdf.save`. -/
def pdfFileName : String := "Fibonacci-Face-Analysis.pdf"

/-- `src/utils/pdfGenerator.ts` `generatePdf`. `elementPresent` models the
`!element` null check; `style` is the element inline style on entry.
Null element: log and return. Libraries missing: log, alert, return.
Otherwise the background is forced to `captureBackground`, `html2canvas`
runs (outcome `env.renderResult`); on success the background is restored,
the A4-width page is sized to the canvas aspect ratio and saved; on
failure the `catch` restores the background and alerts. Every path
resolves the promise normally (`Except.ok ()`). -/
def generatePdf (env : PdfEnv) (elementPresent : Bool) (style : ElementStyle) : PdfRun :=
  if !elementPresent then
    { returned := Except.ok (), alerts := [], saved := none, finalStyle := style }
  else if !env.html2canvasLoaded || !env.jspdfLoaded || !env.jsPDFLoaded then
    { returned := Except.ok (), alerts := [libMissingAlert], saved := none,
      finalStyle := style }
  else
    let originalBg := style.backgroundColor
    let captureStyle : ElementStyle := { style with backgroundColor := captureBackground }
    match env.renderResult with
    | Except.ok canvas =>
      let restored : ElementStyle := { captureStyle with backgroundColor := originalBg }
      let pdfWidth : ℚ := 210
      let pdfHeight : ℚ := canvas.height * pdfWidth / canvas.width
      let doc : PdfDoc :=
        { orient := if pdfWidth > pdfHeight then PdfOrientation.landscape
                    else PdfOrientation.portrait
          formatW := pdfWidth
          formatH := pdfHeight }
      { returned := Except.ok (), alerts := [], saved := some (doc, pdfFileName),
        finalStyle := restored }
    | Except.error _ =>
      let restored : ElementStyle := { captureStyle with backgroundColor := originalBg }
      { returned := Except.ok (), alerts := [pdfErrorAlert], saved := none,
        finalStyle := restored }

/-! ## Concrete fixtures (used by witnesses and counterexamples) -/

/-- A PNG upload. -/
def pngFile : File := { name := "face.png", type := "image/png" }

/-- A GIF upload — not an accepted MIME type. -/
def gifFile : File := { name := "anim.gif", type := "image/gif" }

/-- The attached image built from `pngFile`. -/
def sampleImage : ImageFile := { file := pngFile }

/-- The initial React state of `App`. -/
def initialState : ControllerState :=
  { image := none, analysisResult := none, appState := AppState.Idle, error := none }

/-- Idle with an image attached, ready to analyze. -/
def stateWithImage : ControllerState := { initialState with image := some sampleImage }

/-- A well-formed success response (the §8 example of the spec). -/
def okResult : AnalysisResult :=
  { overallScore := 82
    feedback := "Balanced proportions."
    featureScores := [{ feature := "Facial Symmetry", score := 90 }]
    detailedScores := [{ ratioName := "Face Width / Height", value := "1.62", deviation := 1 }]
    overlayLines := []
    error := none
    errorMessage := none }

/-- A Result-state with residue in every cell, for the reset claim. -/
def stateAtResult : ControllerState :=
  { image := some sampleImage, analysisResult := some okResult,
    appState := AppState.Result, error := some "stale" }

/-! ## Claims -/

/-- C3: a JPEG/PNG/JPG upload attaches an ImageUnit whose mimeType equals
the input type and returns the controller to Idle; any other MIME type
attaches nothing and moves the controller to Error with the fixed
unsupported-type message. -/
theorem upload_accept_reject (s : ControllerState) (f : File) :
    (f.type ∈ acceptedTypes →
      (handleImageUpload s f).image = some ⟨f⟩ ∧
      ((handleImageUpload s f).image.map fun i => i.file.type) = some f.type ∧
      (handleImageUpload s f).appState = AppState.Idle) ∧
    (f.type ∉ acceptedTypes →
      (handleImageUpload s f).image = s.image ∧
      (handleImageUpload s f).appState = AppState.Error ∧
      (handleImageUpload s f).error = some unsupportedTypeMessage) := by
  constructor
  · intro h
    simp [handleImageUpload, h]
  · intro h
    simp [handleImageUpload, h]

/-- Witness for C3: a concrete PNG upload lands in Idle with the file
attached; a concrete GIF upload lands in Error. -/
theorem upload_accept_reject_example :
    (handleImageUpload initialState pngFile).appState = AppState.Idle ∧
    (handleImageUpload initialState pngFile).image = some sampleImage ∧
    (handleImageUpload initialState gifFile).appState = AppState.Error :=
  ⟨((upload_accept_reject initialState pngFile).1 (by decide)).2.2,
   ((upload_accept_reject initialState pngFile).1 (by decide)).1,
   ((upload_accept_reject initialState gifFile).2 (by decide)).2.1⟩

/-- C4: the detail-row band is a pure function of the integer deviation,
with inclusive lower boundaries: d ≤ 5 good, 5 < d ≤ 15 warn, d > 15 bad. -/
theorem deviation_band_thresholds (d : Int) :
    (d ≤ 5 → deviationBandClass d = "text-green-400") ∧
    (5 < d → d ≤ 15 → deviationBandClass d = "text-yellow-400") ∧
    (15 < d → deviationBandClass d = "text-red-400") := by
  refine ⟨fun h => ?_, fun h1 h2 => ?_, fun h => ?_⟩
  · simp [deviationBandClass, h]
  · simp only [deviationBandClass]
    rw [if_neg (by omega), if_pos h2]
  · simp only [deviationBandClass]
    rw [if_neg (by omega), if_neg (by omega)]

/-- Witness for C4 at the boundary values 5, 6 and 16. -/
theorem deviation_band_thresholds_example :
    deviationBandClass 5 = "text-green-400" ∧
    deviationBandClass 6 = "text-yellow-400" ∧
    deviationBandClass 16 = "text-red-400" :=
  ⟨(deviation_band_thresholds 5).1 (by decide),
   (deviation_band_thresholds 6).2.1 (by decide) (by decide),
   (deviation_band_thresholds 16).2.2 (by decide)⟩

/-- C6: reset from Result or Error yields Idle with no image, no analysis
result and no error message retained. -/
theorem reset_clears_state (s : ControllerState)
    (_h : s.appState = AppState.Result ∨ s.appState = AppState.Error) :
    handleReset s =
      { image := none, analysisResult := none, appState := AppState.Idle,
        error := none } := rfl

/-- Witness for C6: resetting a populated Result-state clears every cell. -/
theorem reset_clears_state_example :
    handleReset stateAtResult =
      { image := none, analysisResult := none, appState := AppState.Idle,
        error := none } :=
  reset_clears_state stateAtResult (Or.inl rfl)

/-- C10: rejecting an unsupported MIME type moves the controller to Error
with the unsupported-type message while the image field keeps its prior
value. -/
theorem upload_reject_preserves_image (s : ControllerState) (f : File)
    (h : f.type ∉ acceptedTypes) :
    (handleImageUpload s f).image = s.image ∧
    (handleImageUpload s f).appState = AppState.Error ∧
    (handleImageUpload s f).error = some unsupportedTypeMessage := by
  simp [handleImageUpload, h]

/-- Witness for C10: a GIF rejected while a PNG is attached leaves the
attached PNG in place. -/
theorem upload_reject_preserves_image_example :
    (handleImageUpload stateWithImage gifFile).image = some sampleImage ∧
    (handleImageUpload stateWithImage gifFile).appState = AppState.Error :=
  ⟨(upload_reject_preserves_image stateWithImage gifFile (by decide)).1,
   (upload_reject_preserves_image stateWithImage gifFile (by decide)).2.1⟩

/-- The MULTIPLE_FACES message the prompt instructs the service to emit. -/
def multipleFacesMessage : String :=
  "Please upload a clear photo with only one visible face."

/-- A response with the errorKind set but no errorMessage. -/
def errKindOnlyResult : AnalysisResult :=
  { overallScore := 0, feedback := "", featureScores := [], detailedScores := [],
    overlayLines := [], error := some ErrorKind.MULTIPLE_FACES, errorMessage := none }

/-- A MULTIPLE_FACES response carrying its user-facing message. -/
def multipleFacesResult : AnalysisResult :=
  { errKindOnlyResult with errorMessage := some multipleFacesMessage }

/-- Counterexample to C1 as stated: a response whose errorKind is set but
whose errorMessage is absent does not drive the controller to Error — the
`result.error && result.errorMessage` conjunction fails and the controller
lands in Result. -/
theorem analyze_errorKind_without_message_reaches_Result :
    errKindOnlyResult.error.isSome = true ∧
    (handleAnalyze stateWithImage (Except.ok errKindOnlyResult)).appState =
      AppState.Result ∧
    (handleAnalyze stateWithImage (Except.ok errKindOnlyResult)).appState ≠
      AppState.Error :=
  ⟨rfl, rfl, by decide⟩

/-- C1 (amended): while analyzing an attached image, a resolved result
whose errorKind is set AND whose errorMessage is a nonempty string drives
the controller to Error displaying exactly that errorMessage. -/
theorem analyze_service_error_reaches_Error (s : ControllerState) (img : ImageFile)
    (result : AnalysisResult) (himg : s.image = some img)
    (hk : result.error.isSome = true) (hm : strTruthy result.errorMessage = true) :
    (handleAnalyze s (Except.ok result)).appState = AppState.Error ∧
    (handleAnalyze s (Except.ok result)).error = result.errorMessage := by
  simp [handleAnalyze, himg, hk, hm]

/-- Witness for C1: the MULTIPLE_FACES response with its exact message
reaches Error showing exactly that message. -/
theorem analyze_service_error_reaches_Error_example :
    (handleAnalyze stateWithImage (Except.ok multipleFacesResult)).appState =
      AppState.Error ∧
    (handleAnalyze stateWithImage (Except.ok multipleFacesResult)).error =
      some multipleFacesMessage :=
  analyze_service_error_reaches_Error stateWithImage sampleImage multipleFacesResult
    rfl rfl (by decide)

/-- Counterexample to C2 as stated: the empty JSON object is valid
structured data that does not match the AnalysisResult shape declared by
`analysisSchema`, yet `analyzeFace` returns it as a success — the
`as AnalysisResult` cast validates nothing. -/
theorem analyzeFace_returns_unvalidated_json :
    analysisResultShape (Json.obj []) = false ∧
    analyzeFace (some "test-key") (some sampleImage) (some (Json.obj [])) =
      Except.ok (Json.obj []) :=
  ⟨rfl, rfl⟩

/-- C2 (amended): `analyzeFace` throws the configuration error when no
API credential is set, the input-required error when the image is absent,
and the parse error exactly when `JSON.parse` rejects the response text;
any successfully parsed value is returned as-is, with no retry and no
shape validation. -/
theorem analyzeFace_failure_modes (apiKey : Option String) (img : ImageFile)
    (j : Json) (hk : strTruthy apiKey = true) :
    analyzeFace apiKey (some img) (some j) = Except.ok j ∧
    analyzeFace none (some img) (some j) = Except.error apiKeyMissingMessage ∧
    analyzeFace apiKey none (some j) = Except.error imageRequiredMessage ∧
    analyzeFace apiKey (some img) none = Except.error parseFailureMessage := by
  refine ⟨?_, rfl, ?_, ?_⟩ <;> simp [analyzeFace, hk]

/-- Witness for C2 at a configured key and the null JSON value. -/
theorem analyzeFace_failure_modes_example :
    analyzeFace (some "test-key") (some sampleImage) (some Json.null) =
      Except.ok Json.null ∧
    analyzeFace none (some sampleImage) (some Json.null) =
      Except.error apiKeyMissingMessage :=
  ⟨(analyzeFace_failure_modes (some "test-key") sampleImage Json.null (by decide)).1,
   (analyzeFace_failure_modes (some "test-key") sampleImage Json.null (by decide)).2.1⟩

/-- C5: overlay lines are rendered by scaling each normalized coordinate
by the displayed width/height; in particular (0.1,0.2)-(0.9,0.8) against
a 400×300 display renders at (40,60)-(360,240). -/
theorem renderLine_scales_by_displayed_size :
    (∀ (line : OverlayLine) (w h : ℚ),
      renderLine line w h =
        { x1 := line.x1 * w, y1 := line.y1 * h,
          x2 := line.x2 * w, y2 := line.y2 * h }) ∧
    renderLine { x1 := 0.1, y1 := 0.2, x2 := 0.9, y2 := 0.8, label := none } 400 300 =
      { x1 := 40, y1 := 60, x2 := 360, y2 := 240 } := by
  refine ⟨fun line w h => rfl, ?_⟩
  simp only [renderLine]
  norm_num

/-- A sample inline style of the report element. -/
def plainStyle : ElementStyle :=
  { backgroundColor := "transparent", otherDecls := "padding: 1rem" }

/-- An environment where neither export library is loaded. -/
def libsMissingEnv : PdfEnv :=
  { html2canvasLoaded := false, jspdfLoaded := false, jsPDFLoaded := false,
    renderResult := Except.error "unused" }

/-- An environment where the libraries are loaded but rasterization
throws. -/
def renderFailEnv : PdfEnv :=
  { html2canvasLoaded := true, jspdfLoaded := true, jsPDFLoaded := true,
    renderResult := Except.error "canvas capture failed" }

/-- An environment whose rasterization yields a 100×200 (taller than
wide) bitmap. -/
def portraitEnv : PdfEnv :=
  { html2canvasLoaded := true, jspdfLoaded := true, jsPDFLoaded := true,
    renderResult := Except.ok { width := 100, height := 200 } }

/-- Counterexample to C7 as stated: in both failure situations —
libraries not loaded, and rasterization error — `generatePdf` resolves
normally, so no failure is observable by the caller; the failure is only
alerted to the user. -/
theorem generatePdf_failures_resolve_normally :
    (generatePdf libsMissingEnv true plainStyle).returned = Except.ok () ∧
    (generatePdf renderFailEnv true plainStyle).returned = Except.ok () ∧
    (generatePdf libsMissingEnv true plainStyle).alerts = [libMissingAlert] ∧
    (generatePdf renderFailEnv true plainStyle).alerts = [pdfErrorAlert] :=
  ⟨rfl, rfl, rfl, rfl⟩

/-- C7 (amended): when the rasterization/document libraries are not
loaded, `generatePdf` aborts without saving and surfaces the
library-unavailable alert; when rasterization raises, it aborts without
saving and surfaces the generation-failed alert; in both situations the
failure is reported to the user rather than the caller — the call itself
resolves normally. -/
theorem generatePdf_failure_reporting (env : PdfEnv) (style : ElementStyle) :
    ((env.html2canvasLoaded = false ∨ env.jspdfLoaded = false ∨
        env.jsPDFLoaded = false) →
      generatePdf env true style =
        { returned := Except.ok (), alerts := [libMissingAlert], saved := none,
          finalStyle := style }) ∧
    (∀ msg, env.html2canvasLoaded = true → env.jspdfLoaded = true →
      env.jsPDFLoaded = true → env.renderResult = Except.error msg →
      generatePdf env true style =
        { returned := Except.ok (), alerts := [pdfErrorAlert], saved := none,
          finalStyle := style }) := by
  constructor
  · intro h
    rcases h with h | h | h <;> simp [generatePdf, h]
  · intro msg h1 h2 h3 hr
    simp [generatePdf, h1, h2, h3, hr]

/-- Witness for C7 at the two concrete failure environments. -/
theorem generatePdf_failure_reporting_example :
    generatePdf libsMissingEnv true plainStyle =
      { returned := Except.ok (), alerts := [libMissingAlert], saved := none,
        finalStyle := plainStyle } ∧
    generatePdf renderFailEnv true plainStyle =
      { returned := Except.ok (), alerts := [pdfErrorAlert], saved := none,
        finalStyle := plainStyle } :=
  ⟨(generatePdf_failure_reporting libsMissingEnv plainStyle).1 (Or.inl rfl),
   (generatePdf_failure_reporting renderFailEnv plainStyle).2
     "canvas capture failed" rfl rfl rfl rfl⟩

/-- C8: on every execution path `generatePdf` leaves the element style
exactly as it found it — the background modification is always restored,
and no other style declaration is touched. -/
theorem generatePdf_restores_style (env : PdfEnv) (elementPresent : Bool)
    (style : ElementStyle) :
    (generatePdf env elementPresent style).finalStyle = style := by
  rcases env with ⟨h2c, jp, jpd, rr⟩
  cases rr <;> cases elementPresent <;> cases h2c <;> cases jp <;> cases jpd <;> rfl

/-- C9: a successful export saves a document under the fixed file name
whose page format has exactly the captured bitmap's aspect ratio, and
whose orientation is portrait precisely when the bitmap is at least as
tall as it is wide (landscape otherwise). -/
theorem generatePdf_page_aspect (env : PdfEnv) (style : ElementStyle)
    (canvas : Canvas) (h2c : env.html2canvasLoaded = true)
    (hjp : env.jspdfLoaded = true) (hjpd : env.jsPDFLoaded = true)
    (hr : env.renderResult = Except.ok canvas) (hw : 0 < canvas.width) :
    ∃ doc : PdfDoc,
      (generatePdf env true style).saved = some (doc, pdfFileName) ∧
      doc.formatH * canvas.width = doc.formatW * canvas.height ∧
      (doc.orient = PdfOrientation.portrait ↔ canvas.width ≤ canvas.height) ∧
      (doc.orient = PdfOrientation.landscape ↔ canvas.height < canvas.width) := by
  refine ⟨{ orient := if (210 : ℚ) > canvas.height * 210 / canvas.width then
              PdfOrientation.landscape else PdfOrientation.portrait
            formatW := 210
            formatH := canvas.height * 210 / canvas.width }, ?_, ?_, ?_, ?_⟩
  · simp [generatePdf, h2c, hjp, hjpd, hr]
  · field_simp
    ring
  · by_cases hc : (210 : ℚ) > canvas.height * 210 / canvas.width
    · rw [if_pos hc]
      rw [gt_iff_lt, div_lt_iff₀ hw] at hc
      constructor
      · intro h
        exact absurd h (by simp)
      · intro h
        nlinarith
    · rw [if_neg hc]
      rw [gt_iff_lt, not_lt, le_div_iff₀ hw] at hc
      constructor
      · intro _
        nlinarith
      · intro _
        rfl
  · by_cases hc : (210 : ℚ) > canvas.height * 210 / canvas.width
    · rw [if_pos hc]
      rw [gt_iff_lt, div_lt_iff₀ hw] at hc
      constructor
      · intro _
        nlinarith
      · intro _
        rfl
    · rw [if_neg hc]
      rw [gt_iff_lt, not_lt, le_div_iff₀ hw] at hc
      constructor
      · intro h
        exact absurd h (by simp)
      · intro h
        nlinarith

/-- Witness for C9: a 100×200 capture saves a portrait page of the same
aspect ratio under the fixed file name. -/
theorem generatePdf_page_aspect_example :
    ∃ doc : PdfDoc,
      (generatePdf portraitEnv true plainStyle).saved = some (doc, pdfFileName) ∧
      doc.formatH * (100 : ℚ) = doc.formatW * 200 ∧
      (doc.orient = PdfOrientation.portrait ↔ (100 : ℚ) ≤ 200) ∧
      (doc.orient = PdfOrientation.landscape ↔ (200 : ℚ) < 100) :=
  generatePdf_page_aspect portraitEnv plainStyle { width := 100, height := 200 }
    rfl rfl rfl rfl (by norm_num)

end FaceAnalyzer
